import Mathlib

set_option maxRecDepth 10000

/-!
Shallow embedding of the data-access and caching layer of
`src/fetch_census_data.py` (the Long Beach census dashboard), together with
proofs checking the specification's claims about it.

Conventions of the embedding:
* A pandas `DataFrame` is `DF`: a list of column names and rows of `Cell`s.
* Machine time is a `Nat` counted in minutes (`datetime.utcnow()` values);
  `timedelta(minutes=ttl)` comparisons become `Nat` comparisons.
* Python dicts used as caches become association lists updated by consing,
  so `List.lookup` (first match) models dict assignment/overwrite.
* The `functools.lru_cache` on `_call_api_cached` and the aliasing behaviour
  of returned DataFrames are modelled with an explicit heap of tables and
  `Nat` references, so that "caller mutates the returned table" is expressible.
* HTTP transports are oracles passed in as functions (indexed by the number of
  requests already issued, so distinct attempts may receive distinct answers).
-/

/-! String primitives. Core `String.trim`, `String.toUpper`, `String.toLower`
and `String.startsWith` are implemented on `Substring` iterators that the
kernel cannot reduce, so the embedding uses equivalent definitions on the
underlying character list (mirroring Python's `str.strip`, `str.upper`,
`str.lower` and `str.startswith`, and the `in` substring test). -/

/-- Python `s.startswith(p)`. -/
def strStartsWith (s p : String) : Bool := p.data.isPrefixOf s.data

/-- Python `s.upper()`. -/
def strToUpper (s : String) : String := ⟨s.data.map Char.toUpper⟩

/-- Python `s.lower()`. -/
def strToLower (s : String) : String := ⟨s.data.map Char.toLower⟩

/-- Python `s.strip()`: whitespace removed from both ends. -/
def strTrim (s : String) : String :=
  ⟨((s.data.dropWhile Char.isWhitespace).reverse.dropWhile Char.isWhitespace).reverse⟩

/-- Python `needle in hay` on strings: substring containment. -/
def strContains (hay needle : String) : Bool :=
  hay.data.tails.any (fun t => needle.data.isPrefixOf t)

/-- A cell of a DataFrame: a raw string from the JSON response, an integer
(such as the appended `Year` column), or a missing value (pandas `NaN`). -/
inductive Cell where
  | str (v : String)
  | int (v : Int)
  | na
deriving DecidableEq, Repr

/-- A pandas DataFrame: named columns and rows of cells. -/
structure DF where
  cols : List String
  rows : List (List Cell)
deriving DecidableEq, Repr

/-- `df.empty` in pandas: true when one of the axes has length 0. -/
def DF.isEmpty (d : DF) : Bool := d.rows.isEmpty || d.cols.isEmpty

/-- Value of column `c` in row `r` of a frame with columns `cols`
(first matching column, `Cell.na` when the column is absent). -/
def getCell (cols : List String) (r : List Cell) (c : String) : Cell :=
  ((cols.zip r).lookup c).getD Cell.na

/-- A geography dict: the optional `"for"` and `"in"` entries
(`geo.get("for")` is `Geo.forVal`, `geo.get("in")` is `Geo.inVal`). -/
structure Geo where
  forVal : Option String
  inVal : Option String
deriving DecidableEq, Repr

/-- `CITY_GEO = {"for": "place:43000", "in": "state:06"}`. -/
def CITY_GEO : Geo := { forVal := some "place:43000", inVal := some "state:06" }

/-- `US_GEO = {"for": "us:1"}`. -/
def US_GEO : Geo := { forVal := some "us:1", inVal := none }

/-- `zcta_geo(z)`: ZCTA geography, built without an `in` clause. -/
def zcta_geo (z : String) : Geo :=
  { forVal := some ("zip code tabulation area:" ++ z), inVal := none }

/-- `ZCTA_OVERRIDES`: DP-profile codes that must be swapped to detailed-table
equivalents for ZIP geographies. -/
def ZCTA_OVERRIDES : List (String × String) :=
  [("DP05_0001E", "B01003_001E"), ("DP05_0018E", "B01002_001E")]

/-- `LABELS`: friendly display labels for commonly plotted variables. -/
def LABELS : List (String × String) :=
  [("DP05_0001E", "Total population"),
   ("DP05_0018E", "Median age (years)"),
   ("B01003_001E", "Total population"),
   ("B01002_001E", "Median age (years)")]

/-- `is_zcta_geo(geo)`: the `"for"` value starts with the ZCTA clause. -/
def is_zcta_geo (geo : Geo) : Bool :=
  strStartsWith (geo.forVal.getD "") "zip code tabulation area:"

/-- `dataset_for(code)`: profile dataset for `DP**` codes (after strip/upper),
detailed dataset otherwise. -/
def dataset_for (code : String) : String :=
  if strStartsWith (strToUpper (strTrim code)) "DP" then "acs/acs5/profile"
  else "acs/acs5"

/-- `resolve_code_for_geo(code, geo)`: swap a DP code to its B-table override
when the geography is ZCTA; otherwise return the (stripped) code unchanged. -/
def resolve_code_for_geo (code : String) (geo : Geo) : String :=
  let c := strTrim code
  if is_zcta_geo geo then
    match ZCTA_OVERRIDES.lookup c with
    | some c2 => c2
    | none => c
  else c

/-- The resolution used by `call_api` and `call_api_ttl`: effective code via
`resolve_code_for_geo`, then dataset via `dataset_for` on the effective code. -/
def resolvePair (code : String) (geo : Geo) : String × String :=
  let ce := resolve_code_for_geo code geo
  (ce, dataset_for ce)

/-- C6: resolution of (code, geography) to (effective code, dataset) is a
deterministic pure function — identical inputs give identical outputs — and
in particular `"DP05_0001E"` resolves to `("B01003_001E", "acs/acs5")` under a
ZCTA geography and to `("DP05_0001E", "acs/acs5/profile")` under the city
geography. -/
theorem resolve_deterministic_and_values :
    (∀ (c₁ c₂ : String) (g₁ g₂ : Geo), c₁ = c₂ → g₁ = g₂ →
        resolvePair c₁ g₁ = resolvePair c₂ g₂)
    ∧ resolvePair "DP05_0001E" (zcta_geo "90802") = ("B01003_001E", "acs/acs5")
    ∧ resolvePair "DP05_0001E" CITY_GEO = ("DP05_0001E", "acs/acs5/profile") := by
  refine ⟨fun c₁ c₂ g₁ g₂ hc hg => by rw [hc, hg], ?_, ?_⟩ <;> decide

/-- C6 witness: the determinism clause applied at the ZCTA input. -/
theorem resolve_deterministic_witness :
    resolvePair "DP05_0001E" (zcta_geo "90802")
      = resolvePair "DP05_0001E" (zcta_geo "90802") :=
  resolve_deterministic_and_values.1 "DP05_0001E" "DP05_0001E"
    (zcta_geo "90802") (zcta_geo "90802") rfl rfl

/-! The cache layer of the single-code call path.

`_call_api_cached` is wrapped in `functools.lru_cache(maxsize=4096)` and
`call_api_ttl` keeps its own `_cache : dict[key, (DataFrame, datetime)]`.
To reason about copying versus aliasing of returned DataFrames, tables live
in an explicit heap and the caches store object references; `df.copy()` is
`Heap.alloc` of the current contents, and a caller mutating a returned frame
is `Heap.set` at the returned reference.  The HTTP internals of
`_call_api_cached` (quirk retries, JSON parsing, Year tagging) are abstracted
here into an oracle `fetchHttp : RKey → DF` giving the parsed table; the
request-level internals are modelled separately below for the quirk claims. -/

/-- Cache key shared by the lru cache and the TTL cache:
`(year, code_eff, dataset, geo.get("for"), geo.get("in"))`. -/
abbrev RKey := Int × String × String × Option String × Option String

instance : DecidableEq RKey := fun a b => inferInstanceAs (Decidable (a = b))

/-- Heap of DataFrame objects; a reference (`Nat` index) is a Python object
identity. -/
structure Heap where
  mem : List DF
deriving DecidableEq, Repr

/-- Dereference (out-of-range references read as an empty frame; the
well-formedness invariant below rules that out for cached references). -/
def Heap.get (h : Heap) (r : Nat) : DF := h.mem.getD r { cols := [], rows := [] }

/-- Allocate a fresh object holding table `d` (`df.copy()` allocates). -/
def Heap.alloc (h : Heap) (d : DF) : Heap × Nat :=
  ({ mem := h.mem ++ [d] }, h.mem.length)

/-- Overwrite the object at `r` in place (a caller mutating a DataFrame it
received). -/
def Heap.set (h : Heap) (r : Nat) (d : DF) : Heap :=
  { mem := h.mem.set r d }

/-- Module-level mutable state of the single-code call path: the object heap,
the `functools.lru_cache` of `_call_api_cached` (key → object reference; the
4096-entry bound is never reached in the model, matching a dashboard session),
the TTL `_cache` of `call_api_ttl` (key → (object reference, timestamp in
minutes)), and the number of upstream HTTP fetches issued so far. -/
structure ApiState where
  heap : Heap
  lru : List (RKey × Nat)
  ttlCache : List (RKey × Nat × Nat)
  httpCount : Nat
deriving DecidableEq, Repr

/-- Fresh process state. -/
def initState : ApiState :=
  { heap := { mem := [] }, lru := [], ttlCache := [], httpCount := 0 }

/-- `_TTL_MINUTES = 60`. -/
def TTL_MINUTES : Nat := 60

/-- `_call_api_cached` seen at the cache level: the `functools.lru_cache`
wrapper around the HTTP path.  On a hit, the stored object itself is returned
(`lru_cache` performs no copy); on a miss, the HTTP path runs (`fetchHttp`,
counted in `httpCount`), and the resulting object is stored and returned. -/
def call_api_cached (fetchHttp : RKey → DF) (k : RKey) (st : ApiState) :
    Nat × ApiState :=
  match st.lru.lookup k with
  | some ref => (ref, st)
  | none =>
      ((st.heap.alloc (fetchHttp k)).2,
        { st with
            heap := (st.heap.alloc (fetchHttp k)).1
            lru := (k, (st.heap.alloc (fetchHttp k)).2) :: st.lru
            httpCount := st.httpCount + 1 })

/-- `call_api(year, code, geo)`: resolve the effective code and dataset, then
call the lru-cached low-level API. -/
def call_api (fetchHttp : RKey → DF) (year : Int) (code : String) (geo : Geo)
    (st : ApiState) : Nat × ApiState :=
  let code_eff := resolve_code_for_geo code geo
  let dataset := dataset_for code_eff
  call_api_cached fetchHttp (year, code_eff, dataset, geo.forVal, geo.inVal) st

/-- The key built inside `call_api_ttl`
(`(year, code_eff, dataset, geo.get("for"), geo.get("in"))`); identical to the
key `call_api` passes to `_call_api_cached`. -/
def ttlKey (year : Int) (code : String) (geo : Geo) : RKey :=
  let code_eff := resolve_code_for_geo code geo
  (year, code_eff, dataset_for code_eff, geo.forVal, geo.inVal)

/-- The fall-through (miss or expiry) path of `call_api_ttl`:
`df = call_api(...); _cache[key] = (df.copy(), now); return df`.
Note the stored entry is a fresh copy while the returned `df` is the object
that came out of `call_api` itself. -/
def ttlFetchStore (fetchHttp : RKey → DF) (now : Nat) (year : Int)
    (code : String) (geo : Geo) (st : ApiState) : Nat × ApiState :=
  let ref := (call_api fetchHttp year code geo st).1
  let st1 := (call_api fetchHttp year code geo st).2
  (ref,
    { st1 with
        heap := (st1.heap.alloc (st1.heap.get ref)).1
        ttlCache :=
          (ttlKey year code geo, (st1.heap.alloc (st1.heap.get ref)).2, now)
            :: st1.ttlCache })

/-- `call_api_ttl(year, code, geo, ttl_minutes)` at time `now`: on a TTL hit
(`now - ts < timedelta(minutes=ttl_minutes)`) return a copy of the cached
table; otherwise fall through to `ttlFetchStore`. -/
def call_api_ttl (fetchHttp : RKey → DF) (now : Nat) (year : Int)
    (code : String) (geo : Geo) (ttl_minutes : Nat) (st : ApiState) :
    Nat × ApiState :=
  match st.ttlCache.lookup (ttlKey year code geo) with
  | some (ref, ts) =>
      if now - ts < ttl_minutes then
        ((st.heap.alloc (st.heap.get ref)).2,
         { st with heap := (st.heap.alloc (st.heap.get ref)).1 })
      else ttlFetchStore fetchHttp now year code geo st
  | none => ttlFetchStore fetchHttp now year code geo st

/-- Well-formedness, established by the execution itself: every cached
reference points into the heap, and the TTL cache's entries (stored via
`df.copy()`) never alias the lru cache's entries. -/
def ApiState.WF (st : ApiState) : Prop :=
  (∀ p ∈ st.lru, p.2 < st.heap.mem.length) ∧
  (∀ p ∈ st.ttlCache, p.2.1 < st.heap.mem.length) ∧
  (∀ p ∈ st.ttlCache, ∀ q ∈ st.lru, p.2.1 ≠ q.2)

instance (st : ApiState) : Decidable st.WF := by
  unfold ApiState.WF
  infer_instance

/-- The fresh process state is well-formed. -/
theorem initState_WF : initState.WF := by
  refine ⟨?_, ?_, ?_⟩ <;> intro p hp <;> simp [initState] at hp

/-- An association-list lookup hit is list membership (the `BEq` here is the
one induced by `DecidableEq`, hence lawful). -/
theorem lookup_mem {α β : Type} [BEq α] [LawfulBEq α] {k : α} {b : β} :
    ∀ {l : List (α × β)}, l.lookup k = some b → (k, b) ∈ l := by
  intro l
  induction l with
  | nil => intro h; simp [List.lookup] at h
  | cons p l ih =>
      intro h
      rw [List.lookup] at h
      by_cases hk : k == p.1
      · simp only [hk, if_pos] at h
        cases h
        have hp : p = (k, p.2) := by
          cases p with
          | mk a c =>
              simp only [Prod.mk.injEq]
              exact ⟨(eq_of_beq hk).symm, trivial⟩
        rw [← hp]
        exact List.mem_cons_self p l
      · simp only [hk] at h
        right
        exact ih (by simpa using h)

theorem Heap.get_alloc_of_lt (h : Heap) (d : DF) (r : Nat)
    (hr : r < h.mem.length) : (h.alloc d).1.get r = h.get r := by
  unfold Heap.alloc Heap.get
  exact List.getD_append _ _ _ _ hr

theorem Heap.get_alloc_self (h : Heap) (d : DF) :
    (h.alloc d).1.get (h.alloc d).2 = d := by
  unfold Heap.alloc Heap.get
  rw [List.getD_append_right _ _ _ _ (Nat.le_refl _)]
  simp

theorem Heap.alloc_length (h : Heap) (d : DF) :
    (h.alloc d).1.mem.length = h.mem.length + 1 := by
  simp [Heap.alloc]

theorem Heap.get_set_ne (h : Heap) (r r' : Nat) (d : DF) (hne : r' ≠ r) :
    (h.set r d).get r' = h.get r' := by
  simp [Heap.set, Heap.get, List.getD_eq_getElem?_getD,
    List.getElem?_set_ne (fun he => hne he.symm)]

/-- `(h.alloc d).2` is the pre-allocation heap size. -/
theorem Heap.alloc_ref (h : Heap) (d : DF) : (h.alloc d).2 = h.mem.length := rfl

/-- Behaviour of the lru-cached low-level call `_call_api_cached`: on a hit
the state is unchanged and the stored reference itself is returned; on a miss
exactly one HTTP fetch runs and the fresh object is stored and returned. -/
theorem call_api_cached_spec (f : RKey → DF) (k : RKey) (st : ApiState)
    (hwf : st.WF) (r : Nat) (st' : ApiState)
    (heq : call_api_cached f k st = (r, st')) :
    st'.WF ∧ r < st'.heap.mem.length ∧ st'.ttlCache = st.ttlCache ∧
    st.heap.mem.length ≤ st'.heap.mem.length ∧
    (∀ i, i < st.heap.mem.length → st'.heap.get i = st.heap.get i) ∧
    st'.lru.lookup k = some r ∧
    (match st.lru.lookup k with
     | some ref => st' = st ∧ r = ref ∧ st'.httpCount = st.httpCount
     | none =>
         st'.httpCount = st.httpCount + 1 ∧
         st'.heap.get r = f k ∧
         r = st.heap.mem.length ∧
         st'.lru = (k, r) :: st.lru ∧
         st'.heap.mem.length = st.heap.mem.length + 1) := by
  obtain ⟨hwf1, hwf2, hwf3⟩ := hwf
  unfold call_api_cached at heq
  cases hlk : st.lru.lookup k with
  | some ref =>
      rw [hlk] at heq
      injection heq with h1 h2
      subst h1; subst h2
      exact ⟨⟨hwf1, hwf2, hwf3⟩, hwf1 _ (lookup_mem hlk), rfl, Nat.le_refl _,
        fun i _ => rfl, hlk, rfl, rfl, rfl⟩
  | none =>
      rw [hlk] at heq
      injection heq with h1 h2
      subst h1; subst h2
      constructor
      · -- well-formedness of the new state
        refine ⟨?_, ?_, ?_⟩
        · intro p hp
          rcases List.mem_cons.1 hp with hp | hp
          · subst hp
            simp only [Heap.alloc_ref, Heap.alloc_length]
            omega
          · have := hwf1 p hp
            rw [Heap.alloc_length]
            omega
        · intro p hp
          have := hwf2 p hp
          rw [Heap.alloc_length]
          omega
        · intro p hp q hq
          rcases List.mem_cons.1 hq with hq | hq
          · subst hq
            have := hwf2 p hp
            simp only [Heap.alloc_ref]
            omega
          · exact hwf3 p hp q hq
      refine ⟨?_, rfl, ?_, ?_, ?_, rfl, Heap.get_alloc_self _ _,
        Heap.alloc_ref _ _, rfl, Heap.alloc_length _ _⟩
      · rw [Heap.alloc_ref, Heap.alloc_length]; omega
      · rw [Heap.alloc_length]; omega
      · intro i hi; exact Heap.get_alloc_of_lt _ _ _ hi
      · simp [List.lookup]

/-- `call_api` is exactly the lru-cached call at the `ttlKey`. -/
theorem call_api_eq (f : RKey → DF) (year : Int) (code : String) (geo : Geo)
    (st : ApiState) :
    call_api f year code geo st = call_api_cached f (ttlKey year code geo) st :=
  rfl

/-- `call_api_ttl` on a fresh cached entry takes the copy-return path. -/
theorem call_api_ttl_hit (f : RKey → DF) (now : Nat) (year : Int)
    (code : String) (geo : Geo) (ttl : Nat) (st : ApiState) (ref ts : Nat)
    (hlk : st.ttlCache.lookup (ttlKey year code geo) = some (ref, ts))
    (hts : now - ts < ttl) :
    call_api_ttl f now year code geo ttl st =
      ((st.heap.alloc (st.heap.get ref)).2,
       { st with heap := (st.heap.alloc (st.heap.get ref)).1 }) := by
  unfold call_api_ttl
  rw [hlk]
  simp [hts]

/-- `call_api_ttl` on an expired entry takes the fall-through path. -/
theorem call_api_ttl_expired (f : RKey → DF) (now : Nat) (year : Int)
    (code : String) (geo : Geo) (ttl : Nat) (st : ApiState) (ref ts : Nat)
    (hlk : st.ttlCache.lookup (ttlKey year code geo) = some (ref, ts))
    (hts : ¬ now - ts < ttl) :
    call_api_ttl f now year code geo ttl st =
      ttlFetchStore f now year code geo st := by
  unfold call_api_ttl
  rw [hlk]
  simp [hts]

/-- `call_api_ttl` on an absent key takes the fall-through path. -/
theorem call_api_ttl_missing (f : RKey → DF) (now : Nat) (year : Int)
    (code : String) (geo : Geo) (ttl : Nat) (st : ApiState)
    (hlk : st.ttlCache.lookup (ttlKey year code geo) = none) :
    call_api_ttl f now year code geo ttl st =
      ttlFetchStore f now year code geo st := by
  unfold call_api_ttl
  rw [hlk]

/-- Behaviour of the fall-through path: `call_api` runs once, a copy of its
result is stored under the key with the current timestamp, and the original
object is returned.  Whether an upstream HTTP request happens is decided
entirely by the lru cache. -/
theorem ttlFetchStore_spec (f : RKey → DF) (now : Nat) (year : Int)
    (code : String) (geo : Geo) (st : ApiState) (hwf : st.WF)
    (r : Nat) (st' : ApiState)
    (heq : ttlFetchStore f now year code geo st = (r, st')) :
    st'.WF ∧ r < st'.heap.mem.length ∧
    (∀ i, i < st.heap.mem.length → st'.heap.get i = st.heap.get i) ∧
    st.heap.mem.length ≤ st'.heap.mem.length ∧
    st'.lru.lookup (ttlKey year code geo) = some r ∧
    (∃ rc, st'.ttlCache = (ttlKey year code geo, rc, now) :: st.ttlCache ∧
        st'.heap.get rc = st'.heap.get r ∧ rc ≠ r ∧
        rc < st'.heap.mem.length) ∧
    (match st.lru.lookup (ttlKey year code geo) with
     | some lref =>
         st'.httpCount = st.httpCount ∧
         st'.heap.get r = st.heap.get lref ∧ r = lref
     | none =>
         st'.httpCount = st.httpCount + 1 ∧
         st'.heap.get r = f (ttlKey year code geo)) := by
  rcases hca : call_api f year code geo st with ⟨r1, s1⟩
  obtain ⟨hwf', hr1, httl, hle, hpres, hlru, hmatch⟩ :=
    call_api_cached_spec f (ttlKey year code geo) st hwf r1 s1
      (call_api_eq f year code geo st ▸ hca)
  unfold ttlFetchStore at heq
  rw [hca] at heq
  dsimp only at heq
  injection heq with h1 h2
  subst h1; subst h2
  obtain ⟨hwf1, hwf2, hwf3⟩ := hwf'
  refine ⟨⟨?_, ?_, ?_⟩, ?_, ?_, ?_, hlru, ?_, ?_⟩
  · intro p hp
    have := hwf1 p hp
    rw [Heap.alloc_length]
    omega
  · intro p hp
    rcases List.mem_cons.1 hp with hp | hp
    · subst hp
      simp only [Heap.alloc_ref, Heap.alloc_length]
      omega
    · have := hwf2 p hp
      rw [Heap.alloc_length]
      omega
  · intro p hp q hq
    rcases List.mem_cons.1 hp with hp | hp
    · subst hp
      have := hwf1 q hq
      simp only [Heap.alloc_ref]
      omega
    · exact hwf3 p hp q hq
  · rw [Heap.alloc_length]; omega
  · intro i hi
    rw [Heap.get_alloc_of_lt _ _ _ (Nat.lt_of_lt_of_le hi hle)]
    exact hpres i hi
  · rw [Heap.alloc_length]; omega
  · refine ⟨(s1.heap.alloc (s1.heap.get r1)).2, by rw [httl], ?_, ?_, ?_⟩
    · rw [Heap.get_alloc_self, Heap.get_alloc_of_lt _ _ _ hr1]
    · simp only [Heap.alloc_ref]; omega
    · simp only [Heap.alloc_ref, Heap.alloc_length]; omega
  · rcases hlk : st.lru.lookup (ttlKey year code geo) with _ | lref
    · rw [hlk] at hmatch
      obtain ⟨hcnt, hget, -, -, -⟩ := hmatch
      exact ⟨hcnt, by rw [Heap.get_alloc_of_lt _ _ _ hr1]; exact hget⟩
    · rw [hlk] at hmatch
      obtain ⟨hst, hrr, hcnt⟩ := hmatch
      subst hst
      refine ⟨hcnt, ?_, hrr⟩
      rw [Heap.get_alloc_of_lt _ _ _ hr1]
      rw [hrr]

/-- After any `call_api_ttl` call from a well-formed state, the state stays
well-formed and the key's TTL entry holds a table equal to the returned
one. -/
theorem call_api_ttl_post (f : RKey → DF) (now : Nat) (year : Int)
    (code : String) (geo : Geo) (ttl : Nat) (st : ApiState) (hwf : st.WF)
    (r : Nat) (st' : ApiState)
    (heq : call_api_ttl f now year code geo ttl st = (r, st')) :
    st'.WF ∧ r < st'.heap.mem.length ∧
    ∃ r2 t2, st'.ttlCache.lookup (ttlKey year code geo) = some (r2, t2) ∧
      r2 < st'.heap.mem.length ∧ st'.heap.get r2 = st'.heap.get r := by
  have fall : call_api_ttl f now year code geo ttl st =
        ttlFetchStore f now year code geo st →
      st'.WF ∧ r < st'.heap.mem.length ∧
      ∃ r2 t2, st'.ttlCache.lookup (ttlKey year code geo) = some (r2, t2) ∧
        r2 < st'.heap.mem.length ∧ st'.heap.get r2 = st'.heap.get r := by
    intro hre
    rw [hre] at heq
    obtain ⟨hwf', hr, -, -, -, ⟨rc, httlc, hgetrc, -, hrclt⟩, -⟩ :=
      ttlFetchStore_spec f now year code geo st hwf r st' heq
    refine ⟨hwf', hr, rc, now, ?_, hrclt, hgetrc⟩
    rw [httlc]
    simp [List.lookup]
  cases hlk : st.ttlCache.lookup (ttlKey year code geo) with
  | none => exact fall (call_api_ttl_missing f now year code geo ttl st hlk)
  | some p =>
      rcases p with ⟨ref, ts⟩
      by_cases hts : now - ts < ttl
      · rw [call_api_ttl_hit f now year code geo ttl st ref ts hlk hts] at heq
        injection heq with h1 h2
        subst h1; subst h2
        obtain ⟨hwf1, hwf2, hwf3⟩ := hwf
        have hreflt : ref < st.heap.mem.length :=
          hwf2 (ttlKey year code geo, ref, ts) (lookup_mem hlk)
        refine ⟨⟨?_, ?_, hwf3⟩, ?_, ref, ts, hlk, ?_, ?_⟩
        · intro p hp
          have := hwf1 p hp
          rw [Heap.alloc_length]
          omega
        · intro p hp
          have := hwf2 p hp
          rw [Heap.alloc_length]
          omega
        · simp only [Heap.alloc_ref, Heap.alloc_length]
          omega
        · rw [Heap.alloc_length]
          omega
        · rw [Heap.get_alloc_of_lt _ _ _ hreflt, Heap.get_alloc_self]
      · exact fall (call_api_ttl_expired f now year code geo ttl st ref ts hlk hts)

/-- C5: if `call_api_ttl` is called twice with identical inputs and, at the
second call, the stored entry's age is strictly below the TTL, the second
call returns a table equal to the first call's result while issuing no
network request and leaving both caches untouched. -/
theorem ttl_second_call_within_ttl (f : RKey → DF) (t0 t1 : Nat) (year : Int)
    (code : String) (geo : Geo) (ttl : Nat) (st : ApiState) (hwf : st.WF)
    (r1 : Nat) (st1 : ApiState) (r2 : Nat) (st2 : ApiState) (ref ts : Nat)
    (h1 : call_api_ttl f t0 year code geo ttl st = (r1, st1))
    (hent : st1.ttlCache.lookup (ttlKey year code geo) = some (ref, ts))
    (hage : t1 - ts < ttl)
    (h2 : call_api_ttl f t1 year code geo ttl st1 = (r2, st2)) :
    st2.heap.get r2 = st1.heap.get r1 ∧
    st2.httpCount = st1.httpCount ∧
    st2.lru = st1.lru ∧ st2.ttlCache = st1.ttlCache := by
  obtain ⟨hwf1, hr1lt, r2', t2', hlk', hr2lt', hgeteq⟩ :=
    call_api_ttl_post f t0 year code geo ttl st hwf r1 st1 h1
  rw [hent] at hlk'
  injection hlk' with hpair
  injection hpair with he1 he2
  subst he1; subst he2
  rw [call_api_ttl_hit f t1 year code geo ttl st1 ref ts hent hage] at h2
  injection h2 with h1' h2'
  subst h1'; subst h2'
  refine ⟨?_, rfl, rfl, rfl⟩
  rw [Heap.get_alloc_self]
  exact hgeteq

/-- A concrete parsed response table used in witnesses. -/
def demoDF : DF :=
  { cols := ["NAME", "DP05_0001E", "Year"],
    rows := [[Cell.str "Long Beach city, California", Cell.str "466742",
              Cell.int 2023]] }

/-- A transport oracle answering every request with `demoDF`. -/
def demoFetch : RKey → DF := fun _ => demoDF

/-- State after a first `call_api_ttl` on the fresh process state at minute
0. -/
def demoSt1 : ApiState :=
  (call_api_ttl demoFetch 0 2023 "DP05_0001E" CITY_GEO 60 initState).2

/-- State after a second identical call at minute 30 (inside the TTL). -/
def demoSt2 : ApiState :=
  (call_api_ttl demoFetch 30 2023 "DP05_0001E" CITY_GEO 60 demoSt1).2

/-- C5 witness: the theorem applied to two concrete calls at minutes 0 and
30 with TTL 60. -/
theorem ttl_second_call_within_ttl_witness :
    demoSt2.heap.get 2 = demoSt1.heap.get 0 ∧
    demoSt2.httpCount = demoSt1.httpCount ∧
    demoSt2.lru = demoSt1.lru ∧ demoSt2.ttlCache = demoSt1.ttlCache :=
  ttl_second_call_within_ttl demoFetch 0 30 2023 "DP05_0001E" CITY_GEO 60
    initState initState_WF 0 demoSt1 2 demoSt2 1 0 (by decide) (by decide)
    (by decide) (by decide)

/-- C1 counterexample: a first call at minute 0 fetches once
(`httpCount = 1`); at minute 60 with TTL 60 the stored entry's age equals the
TTL, so the next identical call takes the expiry path — yet it issues NO new
upstream fetch, because `call_api` replays the `functools.lru_cache` entry of
`_call_api_cached`. The claim's "exactly one new upstream fetch (a fresh
invocation of the HTTP request path, not a replay of any other cache)" would
require the counter to reach 2; it stays at 1. -/
theorem ttl_expiry_counterexample :
    demoSt1.ttlCache.lookup (ttlKey 2023 "DP05_0001E" CITY_GEO)
        = some (1, 0) ∧
    ¬ (60 - 0 < 60) ∧
    demoSt1.httpCount = 1 ∧
    (call_api_ttl demoFetch 60 2023 "DP05_0001E" CITY_GEO 60
        demoSt1).2.httpCount = 1 ∧
    ¬ (call_api_ttl demoFetch 60 2023 "DP05_0001E" CITY_GEO 60
        demoSt1).2.httpCount = 2 := by decide

/-- C1 (amended): when the stored entry has expired, `call_api_ttl` runs the
fetch path exactly once; that path issues a new upstream HTTP request only
when the lru cache of `_call_api_cached` lacks the key (then exactly one) and
otherwise replays the lru entry with no network traffic; in either case a
copy of the resulting table is stored under the key with the fresh
timestamp. -/
theorem ttl_expiry_refetch_amended (f : RKey → DF) (now : Nat) (year : Int)
    (code : String) (geo : Geo) (ttl : Nat) (st : ApiState) (hwf : st.WF)
    (ref ts : Nat)
    (hent : st.ttlCache.lookup (ttlKey year code geo) = some (ref, ts))
    (hexp : ¬ now - ts < ttl)
    (r : Nat) (st' : ApiState)
    (heq : call_api_ttl f now year code geo ttl st = (r, st')) :
    (match st.lru.lookup (ttlKey year code geo) with
     | some lref =>
         st'.httpCount = st.httpCount ∧ st'.heap.get r = st.heap.get lref
     | none =>
         st'.httpCount = st.httpCount + 1 ∧
         st'.heap.get r = f (ttlKey year code geo)) ∧
    (∃ rc, st'.ttlCache.lookup (ttlKey year code geo) = some (rc, now) ∧
        st'.heap.get rc = st'.heap.get r) := by
  rw [call_api_ttl_expired f now year code geo ttl st ref ts hent hexp] at heq
  obtain ⟨-, -, -, -, -, ⟨rc, httlc, hgetrc, -, -⟩, hmatch⟩ :=
    ttlFetchStore_spec f now year code geo st hwf r st' heq
  constructor
  · cases hlk : st.lru.lookup (ttlKey year code geo) with
    | some lref =>
        rw [hlk] at hmatch
        exact ⟨hmatch.1, hmatch.2.1⟩
    | none =>
        rw [hlk] at hmatch
        exact hmatch
  · refine ⟨rc, ?_, hgetrc⟩
    rw [httlc]
    simp [List.lookup]

/-- C1 amended witness: the expired second call at minute 60 replays the lru
entry (the lru already holds the key from the first call). -/
theorem ttl_expiry_refetch_amended_witness :
    (match demoSt1.lru.lookup (ttlKey 2023 "DP05_0001E" CITY_GEO) with
     | some lref =>
         (call_api_ttl demoFetch 60 2023 "DP05_0001E" CITY_GEO 60
             demoSt1).2.httpCount = demoSt1.httpCount ∧
         (call_api_ttl demoFetch 60 2023 "DP05_0001E" CITY_GEO 60
             demoSt1).2.heap.get
             (call_api_ttl demoFetch 60 2023 "DP05_0001E" CITY_GEO 60
               demoSt1).1 = demoSt1.heap.get lref
     | none =>
         (call_api_ttl demoFetch 60 2023 "DP05_0001E" CITY_GEO 60
             demoSt1).2.httpCount = demoSt1.httpCount + 1 ∧
         (call_api_ttl demoFetch 60 2023 "DP05_0001E" CITY_GEO 60
             demoSt1).2.heap.get
             (call_api_ttl demoFetch 60 2023 "DP05_0001E" CITY_GEO 60
               demoSt1).1
           = demoFetch (ttlKey 2023 "DP05_0001E" CITY_GEO)) ∧
    (∃ rc,
        (call_api_ttl demoFetch 60 2023 "DP05_0001E" CITY_GEO 60
            demoSt1).2.ttlCache.lookup (ttlKey 2023 "DP05_0001E" CITY_GEO)
          = some (rc, 60) ∧
        (call_api_ttl demoFetch 60 2023 "DP05_0001E" CITY_GEO 60
            demoSt1).2.heap.get rc =
          (call_api_ttl demoFetch 60 2023 "DP05_0001E" CITY_GEO 60
            demoSt1).2.heap.get
            (call_api_ttl demoFetch 60 2023 "DP05_0001E" CITY_GEO 60
              demoSt1).1) :=
  ttl_expiry_refetch_amended demoFetch 60 2023 "DP05_0001E" CITY_GEO 60
    demoSt1 (by decide) 1 0 (by decide) (by decide)
    (call_api_ttl demoFetch 60 2023 "DP05_0001E" CITY_GEO 60 demoSt1).1
    (call_api_ttl demoFetch 60 2023 "DP05_0001E" CITY_GEO 60 demoSt1).2 rfl

/-- A table standing for what a caller turns the returned frame into when it
mutates it. -/
def mutatedDF : DF := { cols := ["X"], rows := [[Cell.int 0]] }

/-- C4 counterexample: on the miss path `call_api_ttl` returns the very
object stored in the `functools.lru_cache` of `_call_api_cached` (only the
TTL cache receives a copy).  Concretely, the first call returns reference 0,
the lru cache stores reference 0 for the key, and mutating the returned table
turns the lru-cached table into the mutated one. -/
theorem ttl_copy_counterexample :
    (call_api_ttl demoFetch 0 2023 "DP05_0001E" CITY_GEO 60 initState).1
        = 0 ∧
    demoSt1.lru.lookup (ttlKey 2023 "DP05_0001E" CITY_GEO) = some 0 ∧
    demoSt1.heap.get 0 = demoDF ∧
    (demoSt1.heap.set 0 mutatedDF).get 0 = mutatedDF ∧
    mutatedDF ≠ demoDF := by decide

/-- C4 (amended): mutating the table returned by `call_api_ttl` leaves every
entry of the TTL cache unchanged (the hit path returns a fresh copy and the
miss path stores a fresh copy), but on the miss/expiry path the returned
table is the same object as the lru cache's entry for the key. -/
theorem ttl_copy_on_return_amended (f : RKey → DF) (now : Nat) (year : Int)
    (code : String) (geo : Geo) (ttl : Nat) (st : ApiState) (hwf : st.WF)
    (r : Nat) (st' : ApiState)
    (heq : call_api_ttl f now year code geo ttl st = (r, st')) :
    (∀ k rc t2, (k, rc, t2) ∈ st'.ttlCache → ∀ d,
        (st'.heap.set r d).get rc = st'.heap.get rc) ∧
    ((match st.ttlCache.lookup (ttlKey year code geo) with
      | some (ref, ts) => ¬ now - ts < ttl
      | none => True) →
      st'.lru.lookup (ttlKey year code geo) = some r) := by
  have fall : call_api_ttl f now year code geo ttl st =
        ttlFetchStore f now year code geo st →
      (∀ k rc t2, (k, rc, t2) ∈ st'.ttlCache → ∀ d,
          (st'.heap.set r d).get rc = st'.heap.get rc) ∧
      st'.lru.lookup (ttlKey year code geo) = some r := by
    intro hre
    rw [hre] at heq
    obtain ⟨hwf', -, -, -, hlru, -, -⟩ :=
      ttlFetchStore_spec f now year code geo st hwf r st' heq
    refine ⟨?_, hlru⟩
    intro k rc t2 hmem d
    apply Heap.get_set_ne
    exact hwf'.2.2 (k, rc, t2) hmem (ttlKey year code geo, r) (lookup_mem hlru)
  cases hlk : st.ttlCache.lookup (ttlKey year code geo) with
  | none =>
      obtain ⟨h1, h2⟩ := fall (call_api_ttl_missing f now year code geo ttl st hlk)
      exact ⟨h1, fun _ => h2⟩
  | some p =>
      rcases p with ⟨ref, ts⟩
      by_cases hts : now - ts < ttl
      · rw [call_api_ttl_hit f now year code geo ttl st ref ts hlk hts] at heq
        injection heq with h1 h2
        subst h1; subst h2
        refine ⟨?_, fun hcon => absurd hts hcon⟩
        intro k rc t2 hmem d
        apply Heap.get_set_ne
        have h3 : rc < st.heap.mem.length := hwf.2.1 (k, rc, t2) hmem
        simp only [Heap.alloc_ref]
        omega
      · obtain ⟨h1, h2⟩ :=
          fall (call_api_ttl_expired f now year code geo ttl st ref ts hlk hts)
        exact ⟨h1, fun _ => h2⟩

/-- C4 amended witness: the theorem applied to the concrete first call from
the fresh state. -/
theorem ttl_copy_on_return_amended_witness :
    (∀ k rc t2, (k, rc, t2) ∈ demoSt1.ttlCache → ∀ d,
        (demoSt1.heap.set
            (call_api_ttl demoFetch 0 2023 "DP05_0001E" CITY_GEO 60
              initState).1 d).get rc = demoSt1.heap.get rc) ∧
    ((match initState.ttlCache.lookup (ttlKey 2023 "DP05_0001E" CITY_GEO) with
      | some (ref, ts) => ¬ 0 - ts < 60
      | none => True) →
      demoSt1.lru.lookup (ttlKey 2023 "DP05_0001E" CITY_GEO)
        = some (call_api_ttl demoFetch 0 2023 "DP05_0001E" CITY_GEO 60
            initState).1) :=
  ttl_copy_on_return_amended demoFetch 0 2023 "DP05_0001E" CITY_GEO 60
    initState initState_WF
    (call_api_ttl demoFetch 0 2023 "DP05_0001E" CITY_GEO 60 initState).1
    demoSt1 rfl

/-! The HTTP internals of `_call_api_cached`: query-parameter construction
and the ZCTA 400-quirk handler.  The transport oracle is indexed by how many
requests this call has already issued, so distinct attempts may receive
distinct answers; one oracle call is one `req(params)` (i.e. one
`SESSION.get`, whose transient-retry policy is internal to it). -/

/-- An HTTP response: status code and body text. -/
structure Resp where
  status : Nat
  text : String
deriving DecidableEq, Repr

/-- Query parameters of a low-level request: the `get` list, the API key, and
the optional `for` and `in` clauses. -/
structure Params where
  get : String
  key : String
  forVal : Option String
  inVal : Option String
deriving DecidableEq, Repr

/-- Python truthiness of an optional string (`if for_val:` / `if in_val:`):
`None` and the empty string are falsy. -/
def truthy (o : Option String) : Option String :=
  match o with
  | some "" => none
  | some s => some s
  | none => none

/-- `params = {"get": ",".join(["NAME", code_eff]), "key": API_KEY}` plus the
`for`/`in` clauses when truthy. -/
def buildParams (code_eff apiKey : String) (for_val in_val : Option String) :
    Params :=
  { get := "NAME," ++ code_eff, key := apiKey,
    forVal := truthy for_val, inVal := truthy in_val }

/-- The last-ditch flip of `_call_api_cached`: `if "in" in params:` drop the
`in` clause, `else` add `in=state:06` — evaluated on the ORIGINAL `params`
dict, which the retry branches never mutate. -/
def quirkFlip (p : Params) : Params :=
  if p.inVal ≠ none then { p with inVal := none }
  else { p with inVal := some "state:06" }

/-- The attempt sequence of `_call_api_cached` after `params` is built: the
first request, the two ZCTA quirk branches, and the last-ditch flip.  Returns
the final response and the list of attempted parameter sets, in order. -/
def quirkRun (transport : Nat → Params → Resp) (for_val : Option String)
    (params : Params) : Resp × List Params :=
  let r := transport 0 params
  if r.status = 400 ∧
      strStartsWith (for_val.getD "") "zip code tabulation area:" then
    let txt := strToLower r.text
    let step1 : Resp × List Params :=
      if strContains txt "ambiguous geography" ∧ params.inVal = none then
        (transport 1 { params with inVal := some "state:06" },
         [params, { params with inVal := some "state:06" }])
      else if strContains txt "unknown/unsupported geography hierarchy" ∧
          params.inVal ≠ none then
        (transport 1 { params with inVal := none },
         [params, { params with inVal := none }])
      else (r, [params])
    if step1.1.status = 400 then
      (transport step1.2.length (quirkFlip params),
       step1.2 ++ [quirkFlip params])
    else step1
  else (r, [params])

/-- A ZCTA request parameter set with no `in` clause, as produced from
`zcta_geo("90802")`. -/
def quirkDemoParams : Params :=
  buildParams "B01003_001E" "K" (some "zip code tabulation area:90802") none

/-- A transport whose first answer is 400 "Ambiguous geography" and whose
later answers are 400 with an unrelated body. -/
def quirkDemoTransport : Nat → Params → Resp := fun i _ =>
  if i = 0 then { status := 400, text := "error: Ambiguous geography" }
  else { status := 400, text := "error: unknown failure" }

/-- C3 counterexample: first ZCTA attempt gets 400 "ambiguous geography" with
no containing-region clause, the retry adds the region clause and is still
400.  The claim says the final flip then REMOVES the currently present
region clause; the code instead tests the ORIGINAL params (no `in` there) and
ADDS the clause again, re-issuing the retried request verbatim: the third
attempt still carries `in=state:06`. -/
theorem quirk_final_flip_counterexample :
    ((quirkRun quirkDemoTransport (some "zip code tabulation area:90802")
        quirkDemoParams).2.map Params.inVal)
      = [none, some "state:06", some "state:06"] ∧
    ((quirkRun quirkDemoTransport (some "zip code tabulation area:90802")
        quirkDemoParams).2.map Params.inVal).getD 2 none ≠ none := by decide

/-- C3 (amended): for a ZCTA request whose first attempt returns HTTP 400,
the ambiguous-geography branch retries once with the region clause added and
the unsupported-hierarchy branch retries once without it; when the retried
attempt is still 400, the final flip is decided by the ORIGINAL parameter set
(remove the clause if the original had it, add it otherwise), which in the
two retried branches re-issues the branch retry's parameters verbatim; when
neither branch matches, the flip is made directly.  The quirk path issues at
most 2 requests beyond the initial one (within the claimed bound of 3). -/
theorem quirk_state_machine_amended (transport : Nat → Params → Resp)
    (for_val : Option String) (p : Params)
    (hz : strStartsWith (for_val.getD "") "zip code tabulation area:" = true)
    (h400 : (transport 0 p).status = 400) :
    (quirkRun transport for_val p).2.length ≤ 3 ∧
    ((strContains (strToLower (transport 0 p).text) "ambiguous geography"
          = true ∧ p.inVal = none) →
      (quirkRun transport for_val p).2 =
        (if (transport 1 { p with inVal := some "state:06" }).status = 400 then
          [p, { p with inVal := some "state:06" },
           { p with inVal := some "state:06" }]
        else [p, { p with inVal := some "state:06" }])) ∧
    ((¬ (strContains (strToLower (transport 0 p).text) "ambiguous geography"
          = true ∧ p.inVal = none) ∧
      strContains (strToLower (transport 0 p).text)
          "unknown/unsupported geography hierarchy" = true ∧ p.inVal ≠ none) →
      (quirkRun transport for_val p).2 =
        (if (transport 1 { p with inVal := none }).status = 400 then
          [p, { p with inVal := none }, { p with inVal := none }]
        else [p, { p with inVal := none }])) ∧
    ((¬ (strContains (strToLower (transport 0 p).text) "ambiguous geography"
          = true ∧ p.inVal = none) ∧
      ¬ (strContains (strToLower (transport 0 p).text)
          "unknown/unsupported geography hierarchy" = true ∧ p.inVal ≠ none)) →
      (quirkRun transport for_val p).2 = [p, quirkFlip p]) := by
  have hchar :
      (quirkRun transport for_val p).2 =
        (if strContains (strToLower (transport 0 p).text) "ambiguous geography"
            = true ∧ p.inVal = none then
          (if (transport 1 { p with inVal := some "state:06" }).status = 400
            then
            [p, { p with inVal := some "state:06" },
             { p with inVal := some "state:06" }]
          else [p, { p with inVal := some "state:06" }])
        else if strContains (strToLower (transport 0 p).text)
            "unknown/unsupported geography hierarchy" = true ∧ p.inVal ≠ none
          then
          (if (transport 1 { p with inVal := none }).status = 400 then
            [p, { p with inVal := none }, { p with inVal := none }]
          else [p, { p with inVal := none }])
        else [p, quirkFlip p]) := by
    unfold quirkRun
    simp only [h400, hz]
    split_ifs with hA hs1 hB hs2 hlast <;>
      simp_all [quirkFlip]
  refine ⟨?_, ?_, ?_, ?_⟩
  · rw [hchar]
    split_ifs <;> simp
  · intro hA
    rw [hchar, if_pos hA]
  · intro hB
    rw [hchar, if_neg hB.1, if_pos hB.2]
  · intro hn
    rw [hchar, if_neg hn.1, if_neg hn.2]

/-- C3 amended witness: the state machine applied to the concrete ambiguous
ZCTA scenario. -/
theorem quirk_state_machine_amended_witness :
    (quirkRun quirkDemoTransport (some "zip code tabulation area:90802")
        quirkDemoParams).2.length ≤ 3 ∧
    ((strContains (strToLower (quirkDemoTransport 0 quirkDemoParams).text)
          "ambiguous geography" = true ∧ quirkDemoParams.inVal = none) →
      (quirkRun quirkDemoTransport (some "zip code tabulation area:90802")
          quirkDemoParams).2 =
        (if (quirkDemoTransport 1
              { quirkDemoParams with inVal := some "state:06" }).status = 400
          then
          [quirkDemoParams, { quirkDemoParams with inVal := some "state:06" },
           { quirkDemoParams with inVal := some "state:06" }]
        else
          [quirkDemoParams,
           { quirkDemoParams with inVal := some "state:06" }])) ∧
    ((¬ (strContains (strToLower (quirkDemoTransport 0 quirkDemoParams).text)
          "ambiguous geography" = true ∧ quirkDemoParams.inVal = none) ∧
      strContains (strToLower (quirkDemoTransport 0 quirkDemoParams).text)
          "unknown/unsupported geography hierarchy" = true ∧
      quirkDemoParams.inVal ≠ none) →
      (quirkRun quirkDemoTransport (some "zip code tabulation area:90802")
          quirkDemoParams).2 =
        (if (quirkDemoTransport 1
              { quirkDemoParams with inVal := none }).status = 400 then
          [quirkDemoParams, { quirkDemoParams with inVal := none },
           { quirkDemoParams with inVal := none }]
        else [quirkDemoParams, { quirkDemoParams with inVal := none }])) ∧
    ((¬ (strContains (strToLower (quirkDemoTransport 0 quirkDemoParams).text)
          "ambiguous geography" = true ∧ quirkDemoParams.inVal = none) ∧
      ¬ (strContains (strToLower (quirkDemoTransport 0 quirkDemoParams).text)
          "unknown/unsupported geography hierarchy" = true ∧
        quirkDemoParams.inVal ≠ none)) →
      (quirkRun quirkDemoTransport (some "zip code tabulation area:90802")
          quirkDemoParams).2 = [quirkDemoParams, quirkFlip quirkDemoParams]) :=
  quirk_state_machine_amended quirkDemoTransport
    (some "zip code tabulation area:90802") quirkDemoParams
    (by decide) (by decide)

/-! The multi-year fan-out `call_api_ttl_many`.

Concurrency is modelled by quantifying over the order in which
`as_completed` yields the per-year futures: any permutation of `years`.
The per-year fetch `one(y) = call_api_ttl(y, code, geo)` is abstracted as a
function of the year.  `ThreadPoolExecutor(max_workers=min(6, len(years)))`
raises `ValueError` when `min(6, len(years)) = 0`, i.e. on an empty year
list, modelled as `none`.  Python's stable `list.sort(key=...)` is modelled
by insertion sort over the same key. -/

/-- `int(cell)` as applied by the sort key.  The call path always stores
`Year` as an integer, so only the first branch is exercised (Python's `int`
would raise on a non-numeric string; the fallback value is never used by the
theorems below). -/
def cellInt : Cell → Int
  | Cell.int v => v
  | Cell.str s => (s.toInt?).getD 0
  | Cell.na => 0

/-- The sort key of `call_api_ttl_many`:
`int(d["Year"].iloc[0]) if "Year" in d.columns and not d.empty else 0`. -/
def yearKey (d : DF) : Int :=
  if "Year" ∈ d.cols ∧ d.isEmpty = false then
    cellInt (getCell d.cols (d.rows.getD 0 []) "Year")
  else 0

/-- `call_api_ttl_many(years, code, geo)`: collect the non-empty per-year
frames in completion order, then sort by the embedded year. -/
def call_api_ttl_many (one : Int → DF) (years completionOrder : List Int) :
    Option (List DF) :=
  if min 6 years.length = 0 then none
  else
    some (((completionOrder.map one).filter
        (fun d => !d.isEmpty)).insertionSort
      (fun a b => yearKey a ≤ yearKey b))

/-- When every NON-EMPTY fetched frame embeds its own year (empty frames may
carry anything: the sort key falls back to 0 for them, but they are filtered
out before the sort), the returned list is the year-sorted image of the
filtered year list — independent of completion order. -/
theorem call_api_ttl_many_eq (one : Int → DF) (years l : List Int)
    (hne : ¬ min 6 years.length = 0)
    (hkey : ∀ y, (one y).isEmpty = false → yearKey (one y) = y) :
    call_api_ttl_many one years l =
      some ((List.insertionSort (fun a b : Int => a ≤ b)
        (l.filter (fun y => !(one y).isEmpty))).map one) := by
  unfold call_api_ttl_many
  rw [if_neg hne, List.filter_map]
  rw [List.map_insertionSort (fun a b : Int => a ≤ b)
    (fun a b : DF => yearKey a ≤ yearKey b) one
    (l.filter (fun y => !(one y).isEmpty))
    (fun a ha b hb => by
      have ha' : (one a).isEmpty = false := by
        simpa using List.of_mem_filter ha
      have hb' : (one b).isEmpty = false := by
        simpa using List.of_mem_filter hb
      simp only [hkey a ha', hkey b hb'])]
  rfl

/-- A per-year demo frame embedding its own year, as `call_api_ttl` always
produces. -/
def yearDemo (y : Int) : DF :=
  { cols := ["NAME", "B01003_001E", "Year"],
    rows := [[Cell.str "Long Beach city, California", Cell.str "466742",
              Cell.int y]] }

/-- C7 counterexample: for the empty year list,
`ThreadPoolExecutor(max_workers=min(6, 0))` raises `ValueError`, so
`call_api_ttl_many` returns no list at all — the claim's "for every list of
years ... returns its per-year tables sorted" fails at `[]`. -/
theorem many_empty_years_counterexample :
    call_api_ttl_many yearDemo [] [] = none := by decide

/-- C7 (amended): for every NON-EMPTY list of years — empty-result years
included, which are dropped before the sort — `call_api_ttl_many` returns
its per-year tables sorted ascending by the embedded Year column, and the
result is independent of the completion order of the concurrent fetches;
with no empty frames it is exactly the year-sorted image of the input
years.  Only non-empty frames are assumed to embed their year, as the call
path guarantees. -/
theorem many_sorted_by_year_amended (one : Int → DF)
    (years completionOrder : List Int)
    (hne : years ≠ [])
    (hperm : completionOrder.Perm years)
    (hkey : ∀ y, (one y).isEmpty = false → yearKey (one y) = y) :
    ∃ frames, call_api_ttl_many one years completionOrder = some frames ∧
      List.Sorted (fun a b => yearKey a ≤ yearKey b) frames ∧
      call_api_ttl_many one years years = some frames ∧
      ((∀ y ∈ years, (one y).isEmpty = false) →
        frames = (List.insertionSort (fun a b : Int => a ≤ b) years).map one) := by
  have hmin : ¬ min 6 years.length = 0 := by
    cases years with
    | nil => exact absurd rfl hne
    | cons a l =>
        simp only [List.length_cons]
        omega
  have hsorted : ∀ l : List Int, (∀ y ∈ l, (one y).isEmpty = false) →
      List.Sorted (fun a b : DF => yearKey a ≤ yearKey b)
        ((List.insertionSort (fun a b : Int => a ≤ b) l).map one) := by
    intro l hl
    rw [List.Sorted, List.pairwise_map]
    have hs := List.sorted_insertionSort (fun a b : Int => a ≤ b) l
    refine List.Pairwise.imp_of_mem ?_ hs
    intro a b ha hb hab
    have ha' := hl a ((List.perm_insertionSort _ _).mem_iff.1 ha)
    have hb' := hl b ((List.perm_insertionSort _ _).mem_iff.1 hb)
    rw [hkey a ha', hkey b hb']
    exact hab
  have hperm' :
      List.insertionSort (fun a b : Int => a ≤ b)
          (completionOrder.filter (fun y => !(one y).isEmpty)) =
        List.insertionSort (fun a b : Int => a ≤ b)
          (years.filter (fun y => !(one y).isEmpty)) := by
    exact @List.eq_of_perm_of_sorted Int (fun a b : Int => a ≤ b) _ _ _
      (((List.perm_insertionSort _ _).trans (hperm.filter _)).trans
        (List.perm_insertionSort _ _).symm)
      (List.sorted_insertionSort _ _) (List.sorted_insertionSort _ _)
  refine ⟨(List.insertionSort (fun a b : Int => a ≤ b)
      (completionOrder.filter (fun y => !(one y).isEmpty))).map one,
    call_api_ttl_many_eq one years completionOrder hmin hkey,
    hsorted _ (fun y hy => by simpa using List.of_mem_filter hy), ?_, ?_⟩
  · rw [call_api_ttl_many_eq one years years hmin hkey, hperm']
  · intro hall
    rw [hperm']
    have : years.filter (fun y => !(one y).isEmpty) = years := by
      rw [List.filter_eq_self]
      intro a ha
      rw [hall a ha]
      rfl
    rw [this]

/-- A per-year fetch where 2022 comes back empty and the other years embed
their own year. -/
def yearDemoGap (y : Int) : DF :=
  if y = 2022 then { cols := [], rows := [] } else yearDemo y

/-- C7 amended witness: completion order [2023, 2022, 2021] for input years
[2021, 2023, 2022], with year 2022 fetching an EMPTY frame — the case where
the sort key of the dropped frame would be 0, which the theorem's hypothesis
does not constrain. -/
theorem many_sorted_by_year_amended_witness :
    ∃ frames,
      call_api_ttl_many yearDemoGap [2021, 2023, 2022] [2023, 2022, 2021]
          = some frames ∧
      List.Sorted (fun a b => yearKey a ≤ yearKey b) frames ∧
      call_api_ttl_many yearDemoGap [2021, 2023, 2022] [2021, 2023, 2022]
          = some frames ∧
      ((∀ y ∈ ([2021, 2023, 2022] : List Int),
          (yearDemoGap y).isEmpty = false) →
        frames = (List.insertionSort (fun a b : Int => a ≤ b)
            [2021, 2023, 2022]).map yearDemoGap) :=
  many_sorted_by_year_amended yearDemoGap [2021, 2023, 2022] [2023, 2022, 2021]
    (by decide) (by decide)
    (fun y hy => by
      by_cases h : y = 2022
      · subst h
        exact absurd hy (by decide)
      · have hgap : yearDemoGap y = yearDemo y := by
          unfold yearDemoGap
          rw [if_neg h]
        rw [hgap] at hy ⊢
        rfl)

/-- C10: every year whose fetched frame is empty is silently omitted from the
result of `call_api_ttl_many`: every returned frame is non-empty, the result
length is the number of years with non-empty frames, and as soon as one year
fetches empty the result is strictly shorter than the input list. -/
theorem many_omits_empty_frames (one : Int → DF)
    (years completionOrder : List Int)
    (hperm : completionOrder.Perm years)
    (frames : List DF)
    (hres : call_api_ttl_many one years completionOrder = some frames) :
    (∀ d ∈ frames, d.isEmpty = false) ∧
    frames.length = (years.filter (fun y => !(one y).isEmpty)).length ∧
    ((∃ y ∈ years, (one y).isEmpty = true) → frames.length < years.length) := by
  unfold call_api_ttl_many at hres
  by_cases hmin : min 6 years.length = 0
  · rw [if_pos hmin] at hres
    exact absurd hres (by simp)
  · rw [if_neg hmin] at hres
    injection hres with hres
    subst hres
    have hmem : ∀ d ∈ (List.insertionSort
        (fun a b : DF => yearKey a ≤ yearKey b)
        ((completionOrder.map one).filter (fun d => !d.isEmpty))),
        d.isEmpty = false := by
      intro d hd
      have hd' := (List.perm_insertionSort
        (fun a b : DF => yearKey a ≤ yearKey b) _).mem_iff.1 hd
      have := List.of_mem_filter hd'
      simpa using this
    have hlen : (List.insertionSort (fun a b : DF => yearKey a ≤ yearKey b)
        ((completionOrder.map one).filter (fun d => !d.isEmpty))).length =
        (years.filter (fun y => !(one y).isEmpty)).length := by
      rw [(List.perm_insertionSort
        (fun a b : DF => yearKey a ≤ yearKey b) _).length_eq]
      rw [List.filter_map]
      rw [List.length_map]
      exact (hperm.filter _).length_eq
    refine ⟨hmem, hlen, ?_⟩
    intro hex
    rw [hlen]
    rw [List.length_filter_lt_length_iff_exists]
    obtain ⟨y, hy, hemp⟩ := hex
    refine ⟨y, hy, ?_⟩
    simp [hemp]


/-- C10 witness: input years [2021, 2022, 2023] with 2022 fetching empty. -/
theorem many_omits_empty_frames_witness :
    (∀ d ∈ [yearDemo 2021, yearDemo 2023], DF.isEmpty d = false) ∧
    ([yearDemo 2021, yearDemo 2023] : List DF).length =
      (([2021, 2022, 2023] : List Int).filter
        (fun y => !(yearDemoGap y).isEmpty)).length ∧
    ((∃ y ∈ ([2021, 2022, 2023] : List Int), (yearDemoGap y).isEmpty = true) →
      ([yearDemo 2021, yearDemo 2023] : List DF).length <
        ([2021, 2022, 2023] : List Int).length) :=
  many_omits_empty_frames yearDemoGap [2021, 2022, 2023] [2023, 2021, 2022]
    (by decide) [yearDemo 2021, yearDemo 2023] (by decide)

/-! The tidy reshaper `tidy_long`.  `pd.to_numeric(errors="coerce")` is
parameterised by the numeric parser (pandas accepts more formats than any
simple parser; every claim below holds for an arbitrary parser): a parsed
string becomes a number, an unparseable one becomes `NaN`, never an error. -/

/-- The fixed identity-column set recognised by `tidy_long`. -/
def ID_COLS : List String :=
  ["NAME", "Year", "state", "place", "us", "zip code tabulation area",
   "Geo", "Topic", "Area"]

/-- `id_cols = [c for c in df.columns if c in (...)]`. -/
def tidyIdCols (df : DF) : List String :=
  df.cols.filter (fun c => ID_COLS.contains c)

/-- `val_cols = [c for c in df.columns if c not in id_cols]`. -/
def tidyValCols (df : DF) : List String :=
  df.cols.filter (fun c => !(tidyIdCols df).contains c)

/-- `pd.to_numeric(x, errors="coerce")` on a single cell. -/
def coerceCell (parseNum : String → Option Int) : Cell → Cell
  | Cell.str s =>
      match parseNum s with
      | some n => Cell.int n
      | none => Cell.na
  | Cell.int v => Cell.int v
  | Cell.na => Cell.na

/-- The output row of the melt for value column `v` of source row `r`:
identity values, the variable name, the numeric-coerced value, and the
display label (`LABELS` lookup with fallback to the raw code). -/
def tidyRow (parseNum : String → Option Int) (df : DF) (v : String)
    (r : List Cell) : List Cell :=
  ((tidyIdCols df).map (fun c => getCell df.cols r c)) ++
    [Cell.str v, coerceCell parseNum (getCell df.cols r v),
     Cell.str ((LABELS.lookup v).getD v)]

/-- `tidy_long(df)`: empty input is returned as is; otherwise melt to long
form (pandas stacks column-major: all rows of the first value column first),
coerce `Value` to numeric, and attach `Display`. -/
def tidy_long (parseNum : String → Option Int) (df : DF) : DF :=
  if df.isEmpty then df
  else
    { cols := tidyIdCols df ++ ["Variable", "Value", "Display"],
      rows := (tidyValCols df).flatMap (fun v =>
        df.rows.map (fun r => tidyRow parseNum df v r)) }

/-- C9: `tidy_long` on an empty table returns it unchanged (no error); on a
non-empty table the output has exactly one row per (source row × value
column) pair — rows with unparseable cells included — every `Value` entry is
a number or the missing-value marker (never a raw string, never an error),
and a source cell whose string fails to parse yields its row with `Value`
being the missing marker. -/
theorem tidy_long_spec (parseNum : String → Option Int) (df : DF) :
    (df.isEmpty = true → tidy_long parseNum df = df) ∧
    (df.isEmpty = false →
      (tidy_long parseNum df).rows.length =
          (tidyValCols df).length * df.rows.length ∧
      (∀ row ∈ (tidy_long parseNum df).rows,
        row.getD ((tidyIdCols df).length + 1) Cell.na = Cell.na ∨
        ∃ n, row.getD ((tidyIdCols df).length + 1) Cell.na = Cell.int n) ∧
      (∀ v ∈ tidyValCols df, ∀ r ∈ df.rows, ∀ s,
        getCell df.cols r v = Cell.str s → parseNum s = none →
        tidyRow parseNum df v r ∈ (tidy_long parseNum df).rows ∧
        (tidyRow parseNum df v r).getD ((tidyIdCols df).length + 1) Cell.na
          = Cell.na)) := by
  constructor
  · intro hemp
    unfold tidy_long
    rw [if_pos hemp]
  · intro hnemp
    have hne : ¬ df.isEmpty = true := by rw [hnemp]; exact Bool.false_ne_true
    have hval : ∀ v r, (tidyRow parseNum df v r).getD
        ((tidyIdCols df).length + 1) Cell.na
          = coerceCell parseNum (getCell df.cols r v) := by
      intro v r
      unfold tidyRow
      rw [List.getD_append_right]
      · have hlen : ((tidyIdCols df).map
            (fun c => getCell df.cols r c)).length = (tidyIdCols df).length :=
          List.length_map _ _
        rw [hlen]
        simp
      · rw [List.length_map]
        omega
    refine ⟨?_, ?_, ?_⟩
    · unfold tidy_long
      rw [if_neg hne]
      simp only [List.length_flatMap, List.map_map]
      have : (List.map (List.length ∘ fun v =>
          df.rows.map (fun r => tidyRow parseNum df v r)) (tidyValCols df)) =
          List.replicate (tidyValCols df).length df.rows.length := by
        rw [List.map_eq_replicate_iff]
        intro v hv
        simp
      rw [this, List.sum_replicate, smul_eq_mul]
    · intro row hrow
      unfold tidy_long at hrow
      rw [if_neg hne] at hrow
      simp only [List.mem_flatMap, List.mem_map] at hrow
      obtain ⟨v, hv, r, hr, hrw⟩ := hrow
      rw [← hrw, hval v r]
      cases hcell : getCell df.cols r v with
      | str s =>
          cases hp : parseNum s with
          | none => left; simp [coerceCell, hp]
          | some n => right; exact ⟨n, by simp [coerceCell, hp]⟩
      | int n => right; exact ⟨n, by simp [coerceCell]⟩
      | na => left; simp [coerceCell]
    · intro v hv r hr s hcell hp
      constructor
      · unfold tidy_long
        rw [if_neg hne]
        simp only [List.mem_flatMap, List.mem_map]
        exact ⟨v, hv, r, hr, rfl⟩
      · rw [hval v r, hcell]
        simp [coerceCell, hp]

/-- A wide demo response with a non-numeric cell `(X)`. -/
def tidyDemoDF : DF :=
  { cols := ["NAME", "DP05_0001E", "DP05_0018E", "Year"],
    rows := [[Cell.str "Long Beach city, California", Cell.str "466742",
              Cell.str "(X)", Cell.int 2023]] }

/-- A demo empty frame (columns but no rows). -/
def emptyDemoDF : DF := { cols := ["NAME", "DP05_0001E"], rows := [] }

/-- A demo numeric parser (digits with optional sign). -/
def parseDemo : String → Option Int := fun s => s.toInt?

/-- C9 witness: the theorem applied to a concrete empty frame and to a
concrete frame containing the unparseable cell `(X)`. -/
theorem tidy_long_spec_witness :
    tidy_long parseDemo emptyDemoDF = emptyDemoDF ∧
    ((tidy_long parseDemo tidyDemoDF).rows.length =
        (tidyValCols tidyDemoDF).length * tidyDemoDF.rows.length ∧
      (∀ row ∈ (tidy_long parseDemo tidyDemoDF).rows,
        row.getD ((tidyIdCols tidyDemoDF).length + 1) Cell.na = Cell.na ∨
        ∃ n, row.getD ((tidyIdCols tidyDemoDF).length + 1) Cell.na
          = Cell.int n) ∧
      (∀ v ∈ tidyValCols tidyDemoDF, ∀ r ∈ tidyDemoDF.rows, ∀ s,
        getCell tidyDemoDF.cols r v = Cell.str s → parseDemo s = none →
        tidyRow parseDemo tidyDemoDF v r
            ∈ (tidy_long parseDemo tidyDemoDF).rows ∧
        (tidyRow parseDemo tidyDemoDF v r).getD
            ((tidyIdCols tidyDemoDF).length + 1) Cell.na = Cell.na)) :=
  ⟨(tidy_long_spec parseDemo emptyDemoDF).1 (by decide),
   (tidy_long_spec parseDemo tidyDemoDF).2 (by decide)⟩

/-! The multi-variable batcher `call_api_vars` and its TTL wrapper
`call_api_vars_ttl`.

This path does NOT go through `resolve_code_for_geo`, `_call_api_cached`'s
lru cache, or the single-call `_cache`: it partitions the raw codes by
`_dataset_for`, issues its own `SESSION.get` requests (with a two-branch
ZCTA quirk retry and no final flip), tags each parsed frame with the year,
and concatenates them; `call_api_vars_ttl` keeps a separate `_multi_cache`
keyed by `(year, tuple(sorted(codes)), geo.get("for"), geo.get("in"))`.
`raise_for_status` is modelled as `Except.error` carrying the status. -/

/-- `_dataset_for(code)`: like `dataset_for` but without `strip()`. -/
def dataset_for_multi (code : String) : String :=
  if strStartsWith (strToUpper code) "DP" then "acs/acs5/profile"
  else "acs/acs5"

/-- `",".join(vars)`. -/
def joinComma : List String → String
  | [] => ""
  | [s] => s
  | s :: rest => s ++ "," ++ joinComma rest

/-- A request issued by `call_api_vars`: the year/dataset (choosing the URL),
the `get` list, the API key, and the geography clauses (`params["for"] =
geo["for"]` when the key exists — membership, not truthiness, here). -/
structure VReq where
  year : Int
  dataset : String
  get : String
  key : String
  forVal : Option String
  inVal : Option String
deriving DecidableEq, Repr

/-- A response on the batch path: status, body text, and the parsed JSON
table (`pd.DataFrame(js[1:], columns=js[0])`). -/
structure VResp where
  status : Nat
  text : String
  table : DF
deriving DecidableEq, Repr

/-- `df["Year"] = year`: append a `Year` column holding the year on every
row (the API frames of this path never carry a `Year` column already). -/
def addYearCol (year : Int) (d : DF) : DF :=
  { cols := d.cols ++ ["Year"],
    rows := d.rows.map (fun r => r ++ [Cell.int year]) }

/-- The per-family request of `call_api_vars`:
`{"get": "NAME," + ",".join(vars_), "key": API_KEY}` plus geography. -/
def vreqFor (year : Int) (apiKey dataset : String) (vars : List String)
    (geo : Geo) : VReq :=
  { year := year, dataset := dataset, get := "NAME," ++ joinComma vars,
    key := apiKey, forVal := geo.forVal, inVal := geo.inVal }

/-- One bucket's request path in `call_api_vars`: the first attempt (request
number `idx` of the call), then the two-branch ZCTA quirk retry — note the
substring test on the `for` value and no final flip here.  Returns the final
response and the requests issued. -/
def vfetchBucket (transport : Nat → VReq → VResp) (idx : Nat) (req : VReq) :
    VResp × List VReq :=
  let r := transport idx req
  if r.status = 400 ∧
      strContains (req.forVal.getD "") "zip code tabulation area" then
    let txt := strToLower r.text
    if strContains txt "ambiguous geography" ∧ req.inVal = none then
      (transport (idx + 1) { req with inVal := some "state:06" },
       [req, { req with inVal := some "state:06" }])
    else if strContains txt "unsupported geography hierarchy" ∧
        req.inVal ≠ none then
      (transport (idx + 1) { req with inVal := none },
       [req, { req with inVal := none }])
    else (r, [req])
  else (r, [req])

/-- The bucket loop of `call_api_vars`: skip empty buckets, issue one
(quirk-retried) request per non-empty bucket, abort on `raise_for_status`
(any final status of 400 or above), and accumulate the Year-tagged frames
and the issued requests. -/
def vrunBuckets (transport : Nat → VReq → VResp) (year : Int) (geo : Geo)
    (apiKey : String) :
    List (String × List String) → Nat → List DF → List VReq →
    Except Nat (List DF) × List VReq
  | [], _, frames, reqs => (Except.ok frames, reqs)
  | (dataset, vars) :: rest, idx, frames, reqs =>
      if vars.isEmpty then
        vrunBuckets transport year geo apiKey rest idx frames reqs
      else
        let out := vfetchBucket transport idx (vreqFor year apiKey dataset vars geo)
        if 400 ≤ out.1.status then (Except.error out.1.status, reqs ++ out.2)
        else
          vrunBuckets transport year geo apiKey rest (idx + out.2.length)
            (frames ++ [addYearCol year out.1.table]) (reqs ++ out.2)

/-- Column union of concatenated frames, in order of first appearance. -/
def concatCols (frames : List DF) : List String :=
  (frames.flatMap DF.cols).foldl
    (fun acc c => if acc.contains c then acc else acc ++ [c]) []

/-- `pd.concat(frames, ignore_index=True)` over frames with possibly
different columns: union of columns in order of first appearance, missing
cells `NaN`; the fully empty `pd.DataFrame()` when `frames` is empty. -/
def pdConcat (frames : List DF) : DF :=
  match frames with
  | [] => { cols := [], rows := [] }
  | _ =>
      { cols := concatCols frames,
        rows := frames.flatMap (fun f => f.rows.map (fun r =>
          (concatCols frames).map (fun c =>
            if f.cols.contains c then getCell f.cols r c else Cell.na))) }

/-- `call_api_vars(year, codes, geo)`: partition the raw codes by
`_dataset_for` into the profile and detailed buckets (the Python dict's
insertion order: profile first), run the bucket loop from request number 0,
and concatenate the resulting frames row-wise. -/
def call_api_vars (transport : Nat → VReq → VResp) (year : Int)
    (codes : List String) (geo : Geo) (apiKey : String) :
    Except Nat DF × List VReq :=
  ((vrunBuckets transport year geo apiKey
      [("acs/acs5/profile",
        codes.filter (fun c => dataset_for_multi c == "acs/acs5/profile")),
       ("acs/acs5",
        codes.filter (fun c => dataset_for_multi c == "acs/acs5"))]
      0 [] []).1.map pdConcat,
   (vrunBuckets transport year geo apiKey
      [("acs/acs5/profile",
        codes.filter (fun c => dataset_for_multi c == "acs/acs5/profile")),
       ("acs/acs5",
        codes.filter (fun c => dataset_for_multi c == "acs/acs5"))]
      0 [] []).2)

/-- Code-point comparison of two strings, as Python's `sorted` uses. -/
def charListLe : List Char → List Char → Bool
  | [], _ => true
  | _ :: _, [] => false
  | a :: as, b :: bs =>
      if a = b then charListLe as bs else a.toNat ≤ b.toNat

/-- `tuple(sorted(codes))` inside the `_multi_cache` key. -/
def sortedCodes (codes : List String) : List String :=
  codes.insertionSort (fun a b => charListLe a.data b.data = true)

/-- `_multi_cache` key: `(year, tuple(sorted(codes)), geo.get("for"),
geo.get("in"))`.  Unlike the single-call key, it contains no dataset and no
effective (substituted) code. -/
abbrev MKey := Int × List String × Option String × Option String

instance : DecidableEq MKey := fun a b => inferInstanceAs (Decidable (a = b))

/-- The key built by `call_api_vars_ttl`. -/
def multiKey (year : Int) (codes : List String) (geo : Geo) : MKey :=
  (year, sortedCodes codes, geo.forVal, geo.inVal)

/-- The `_multi_cache` plus an instrumentation counter of all `SESSION.get`
requests the batch path has issued. -/
structure VTtlState where
  multi : List (MKey × DF × Nat)
  requestCount : Nat
deriving DecidableEq, Repr

/-- The fall-through path of `call_api_vars_ttl`: run `call_api_vars`, store
`(df.copy(), now)` on success (an exception propagates without storing), and
return the frame. -/
def vfetchStoreMulti (transport : Nat → VReq → VResp) (now : Nat)
    (year : Int) (codes : List String) (geo : Geo) (apiKey : String)
    (st : VTtlState) : Except Nat DF × VTtlState :=
  match call_api_vars transport year codes geo apiKey with
  | (Except.ok df, reqs) =>
      (Except.ok df,
       { multi := (multiKey year codes geo, df, now) :: st.multi,
         requestCount := st.requestCount + reqs.length })
  | (Except.error e, reqs) =>
      (Except.error e,
       { st with requestCount := st.requestCount + reqs.length })

/-- `call_api_vars_ttl`: serve a fresh `_multi_cache` entry as a copy with no
request; otherwise fall through to `vfetchStoreMulti`. -/
def call_api_vars_ttl (transport : Nat → VReq → VResp) (now : Nat)
    (year : Int) (codes : List String) (geo : Geo) (apiKey : String)
    (ttl_minutes : Nat) (st : VTtlState) : Except Nat DF × VTtlState :=
  match st.multi.lookup (multiKey year codes geo) with
  | some (df, ts) =>
      if now - ts < ttl_minutes then (Except.ok df, st)
      else vfetchStoreMulti transport now year codes geo apiKey st
  | none => vfetchStoreMulti transport now year codes geo apiKey st

/-- A bucket fetch issues one or two requests. -/
theorem vfetchBucket_len_cases (transport : Nat → VReq → VResp) (idx : Nat)
    (req : VReq) :
    (vfetchBucket transport idx req).2.length = 1 ∨
    (vfetchBucket transport idx req).2.length = 2 := by
  unfold vfetchBucket
  dsimp only
  split_ifs <;> simp

/-- For a non-ZCTA `for` clause the quirk retry never fires: exactly one
request. -/
theorem vfetchBucket_len_non_zcta (transport : Nat → VReq → VResp)
    (idx : Nat) (req : VReq)
    (hnz : ¬ strContains (req.forVal.getD "") "zip code tabulation area"
        = true) :
    (vfetchBucket transport idx req).2.length = 1 := by
  unfold vfetchBucket
  rw [if_neg (fun h => hnz h.2)]
  rfl

/-- Every request a bucket fetch issues agrees with the bucket's request on
everything except possibly the `in` clause. -/
theorem vfetchBucket_mem (transport : Nat → VReq → VResp) (idx : Nat)
    (req : VReq) :
    ∀ q ∈ (vfetchBucket transport idx req).2,
      q.dataset = req.dataset ∧ q.get = req.get ∧ q.year = req.year ∧
      q.forVal = req.forVal := by
  unfold vfetchBucket
  dsimp only
  split_ifs <;> intro q hq <;>
    simp only [List.mem_cons, List.mem_singleton, List.not_mem_nil,
      or_false] at hq
  · rcases hq with rfl | rfl
    · exact ⟨rfl, rfl, rfl, rfl⟩
    · exact ⟨rfl, rfl, rfl, rfl⟩
  · rcases hq with rfl | rfl
    · exact ⟨rfl, rfl, rfl, rfl⟩
    · exact ⟨rfl, rfl, rfl, rfl⟩
  · subst hq; exact ⟨rfl, rfl, rfl, rfl⟩
  · subst hq; exact ⟨rfl, rfl, rfl, rfl⟩

/-- Behaviour of the bucket loop: request-count bounds, the shape of every
issued request, and the number of frames delivered on success. -/
theorem vrunBuckets_spec (transport : Nat → VReq → VResp) (year : Int)
    (geo : Geo) (apiKey : String) :
    ∀ (buckets : List (String × List String)) (idx : Nat)
      (frames0 : List DF) (reqs0 : List VReq),
      ((vrunBuckets transport year geo apiKey buckets idx frames0
          reqs0).2.length
        ≤ reqs0.length + 2 * (buckets.filter (fun b => !b.2.isEmpty)).length) ∧
      (¬ strContains (geo.forVal.getD "") "zip code tabulation area" = true →
        (vrunBuckets transport year geo apiKey buckets idx frames0
            reqs0).2.length
          ≤ reqs0.length + (buckets.filter (fun b => !b.2.isEmpty)).length) ∧
      (∀ q ∈ (vrunBuckets transport year geo apiKey buckets idx frames0
          reqs0).2,
        q ∈ reqs0 ∨ ∃ b ∈ buckets, ¬ b.2.isEmpty = true ∧ q.dataset = b.1 ∧
          q.get = "NAME," ++ joinComma b.2 ∧ q.year = year ∧
          q.forVal = geo.forVal) ∧
      (∀ fs, (vrunBuckets transport year geo apiKey buckets idx frames0
          reqs0).1 = Except.ok fs →
        fs.length = frames0.length +
          (buckets.filter (fun b => !b.2.isEmpty)).length) := by
  intro buckets
  induction buckets with
  | nil =>
      intro idx frames0 reqs0
      refine ⟨by simp [vrunBuckets], fun _ => by simp [vrunBuckets], ?_, ?_⟩
      · intro q hq
        exact Or.inl (by simpa [vrunBuckets] using hq)
      · intro fs hfs
        simp only [vrunBuckets] at hfs
        injection hfs with hfs
        subst hfs
        simp
  | cons b rest ih =>
      intro idx frames0 reqs0
      rcases b with ⟨dataset, vars⟩
      by_cases hv : vars.isEmpty
      · have hred : vrunBuckets transport year geo apiKey
            ((dataset, vars) :: rest) idx frames0 reqs0 =
            vrunBuckets transport year geo apiKey rest idx frames0 reqs0 := by
          rw [vrunBuckets, if_pos hv]
        have hfl : ((dataset, vars) :: rest).filter (fun b => !b.2.isEmpty) =
            rest.filter (fun b => !b.2.isEmpty) := by
          simp [List.filter, hv]
        obtain ⟨ih1, ih2, ih3, ih4⟩ := ih idx frames0 reqs0
        rw [hred, hfl]
        refine ⟨ih1, ih2, ?_, ih4⟩
        intro q hq
        rcases ih3 q hq with hql | ⟨b2, hb2, hrest⟩
        · exact Or.inl hql
        · exact Or.inr ⟨b2, List.mem_cons_of_mem _ hb2, hrest⟩
      · have hred : vrunBuckets transport year geo apiKey
            ((dataset, vars) :: rest) idx frames0 reqs0 =
            (let out := vfetchBucket transport idx
              (vreqFor year apiKey dataset vars geo)
            if 400 ≤ out.1.status then (Except.error out.1.status, reqs0 ++ out.2)
            else vrunBuckets transport year geo apiKey rest (idx + out.2.length)
              (frames0 ++ [addYearCol year out.1.table]) (reqs0 ++ out.2)) := by
          rw [vrunBuckets, if_neg hv]
        have hfl : ((dataset, vars) :: rest).filter (fun b => !b.2.isEmpty) =
            (dataset, vars) :: rest.filter (fun b => !b.2.isEmpty) := by
          simp [List.filter, hv]
        have hout := vfetchBucket_len_cases transport idx
          (vreqFor year apiKey dataset vars geo)
        have houtmem := vfetchBucket_mem transport idx
          (vreqFor year apiKey dataset vars geo)
        rw [hred, hfl]
        by_cases hst : 400 ≤ (vfetchBucket transport idx
            (vreqFor year apiKey dataset vars geo)).1.status
        · simp only [if_pos hst]
          refine ⟨?_, ?_, ?_, ?_⟩
          · simp only [List.length_append, List.length_cons]
            rcases hout with h1 | h1 <;> rw [h1] <;> omega
          · intro hnz
            have := vfetchBucket_len_non_zcta transport idx
              (vreqFor year apiKey dataset vars geo) hnz
            simp only [List.length_append, this, List.length_cons]
            omega
          · intro q hq
            rcases List.mem_append.1 hq with hql | hqr
            · exact Or.inl hql
            · refine Or.inr ⟨(dataset, vars), List.mem_cons_self _ _, ?_⟩
              obtain ⟨h1, h2, h3, h4⟩ := houtmem q hqr
              exact ⟨by simpa using hv, h1, h2, h3, h4⟩
          · intro fs hfs
            exact absurd hfs (by simp)
        · simp only [if_neg hst]
          obtain ⟨ih1, ih2, ih3, ih4⟩ := ih
            (idx + (vfetchBucket transport idx
              (vreqFor year apiKey dataset vars geo)).2.length)
            (frames0 ++ [addYearCol year (vfetchBucket transport idx
              (vreqFor year apiKey dataset vars geo)).1.table])
            (reqs0 ++ (vfetchBucket transport idx
              (vreqFor year apiKey dataset vars geo)).2)
          refine ⟨?_, ?_, ?_, ?_⟩
          · refine le_trans ih1 ?_
            simp only [List.length_append]
            rcases hout with h1 | h1 <;> rw [h1] <;> simp <;> omega
          · intro hnz
            refine le_trans (ih2 hnz) ?_
            have := vfetchBucket_len_non_zcta transport idx
              (vreqFor year apiKey dataset vars geo) hnz
            simp only [List.length_append, this]
            simp
            omega
          · intro q hq
            rcases ih3 q hq with hql | ⟨b2, hb2, hrest⟩
            · rcases List.mem_append.1 hql with hq0 | hqf
              · exact Or.inl hq0
              · refine Or.inr ⟨(dataset, vars), List.mem_cons_self _ _, ?_⟩
                obtain ⟨h1, h2, h3, h4⟩ := houtmem q hqf
                exact ⟨by simpa using hv, h1, h2, h3, h4⟩
            · exact Or.inr ⟨b2, List.mem_cons_of_mem _ hb2, hrest⟩
          · intro fs hfs
            have := ih4 fs hfs
            simp only [List.length_append, List.length_singleton] at this
            simp only [List.length_cons]
            omega

/-- Row-wise concatenation: the concatenated frame has exactly the rows of
all frames, in order. -/
theorem pdConcat_rows_length (frames : List DF) :
    (pdConcat frames).rows.length =
      (frames.map (fun f => f.rows.length)).sum := by
  cases frames with
  | nil => rfl
  | cons f fs =>
      simp only [pdConcat, List.length_flatMap, List.map_map]
      congr 1
      refine List.map_congr_left ?_
      intro g _
      simp

/-- A parsed response table used by the batch-path demos. -/
def vDemoTable : DF :=
  { cols := ["NAME", "X"], rows := [[Cell.str "Long Beach", Cell.str "1"]] }

/-- A transport answering 200 with `vDemoTable` on every request. -/
def varsOkTransport : Nat → VReq → VResp := fun _ _ =>
  { status := 200, text := "", table := vDemoTable }

/-- A transport that answers 400 "Ambiguous geography" to the first request
of each of the two buckets (requests 0 and 2) and 200 to the retries. -/
def varsQuirkTransport : Nat → VReq → VResp := fun i _ =>
  if i = 0 ∨ i = 2 then
    { status := 400, text := "error: Ambiguous geography",
      table := { cols := [], rows := [] } }
  else { status := 200, text := "", table := vDemoTable }

/-- C8 counterexample: a ZCTA batch over one profile and one detailed code
whose first attempts are 400 "ambiguous geography" issues 4 upstream
requests — the quirk retry adds one request per family, violating the
claimed bound of at most 2 upstream requests total. -/
theorem vars_two_requests_counterexample :
    (call_api_vars varsQuirkTransport 2023 ["DP05_0001E", "B01001_001E"]
        (zcta_geo "90802") "K").2.length = 4 ∧
    ¬ (call_api_vars varsQuirkTransport 2023 ["DP05_0001E", "B01001_001E"]
        (zcta_geo "90802") "K").2.length ≤ 2 := by decide

/-- C8 (amended): `call_api_vars` partitions the codes by dataset family and
issues at most one INITIAL request per family; the ZCTA quirk retry can add
one more request per family, so the total is at most 4, and at most 2
whenever the geography is not ZCTA; every issued request carries the raw
code list of exactly one family; on success the per-family tables (one per
non-empty family) are concatenated row-wise into the returned table. -/
theorem vars_batching_amended (transport : Nat → VReq → VResp) (year : Int)
    (codes : List String) (geo : Geo) (apiKey : String) :
    (call_api_vars transport year codes geo apiKey).2.length ≤ 4 ∧
    (¬ strContains (geo.forVal.getD "") "zip code tabulation area" = true →
      (call_api_vars transport year codes geo apiKey).2.length ≤ 2) ∧
    (∀ q ∈ (call_api_vars transport year codes geo apiKey).2,
      (q.dataset = "acs/acs5/profile" ∧ q.get = "NAME," ++ joinComma
        (codes.filter (fun c => dataset_for_multi c == "acs/acs5/profile"))) ∨
      (q.dataset = "acs/acs5" ∧ q.get = "NAME," ++ joinComma
        (codes.filter (fun c => dataset_for_multi c == "acs/acs5")))) ∧
    (∀ df, (call_api_vars transport year codes geo apiKey).1 = Except.ok df →
      ∃ fs : List DF, df = pdConcat fs ∧
        fs.length =
          ((if (codes.filter (fun c => dataset_for_multi c
              == "acs/acs5/profile")).isEmpty then 0 else 1) +
           (if (codes.filter (fun c => dataset_for_multi c
              == "acs/acs5")).isEmpty then 0 else 1)) ∧
        df.rows.length = (fs.map (fun f => f.rows.length)).sum) := by
  obtain ⟨s1, s2, s3, s4⟩ := vrunBuckets_spec transport year geo apiKey
    [("acs/acs5/profile",
      codes.filter (fun c => dataset_for_multi c == "acs/acs5/profile")),
     ("acs/acs5",
      codes.filter (fun c => dataset_for_multi c == "acs/acs5"))] 0 [] []
  have hcnt : ((([("acs/acs5/profile",
      codes.filter (fun c => dataset_for_multi c == "acs/acs5/profile")),
     ("acs/acs5", codes.filter (fun c => dataset_for_multi c == "acs/acs5"))])
        : List (String × List String)).filter
        (fun b => !b.2.isEmpty)).length =
      ((if (codes.filter (fun c => dataset_for_multi c
          == "acs/acs5/profile")).isEmpty then 0 else 1) +
       (if (codes.filter (fun c => dataset_for_multi c
          == "acs/acs5")).isEmpty then 0 else 1)) := by
    by_cases h1 : (codes.filter (fun c => dataset_for_multi c
        == "acs/acs5/profile")).isEmpty <;>
      by_cases h2 : (codes.filter (fun c => dataset_for_multi c
        == "acs/acs5")).isEmpty <;>
      simp [List.filter, h1, h2]
  refine ⟨?_, ?_, ?_, ?_⟩
  · refine le_trans s1 ?_
    rw [hcnt]
    simp only [List.length_nil]
    split_ifs <;> omega
  · intro hnz
    refine le_trans (s2 hnz) ?_
    rw [hcnt]
    simp only [List.length_nil]
    split_ifs <;> omega
  · intro q hq
    rcases s3 q hq with hq0 | ⟨b, hb, -, hds, hget, -, -⟩
    · exact absurd hq0 (List.not_mem_nil q)
    · rcases List.mem_cons.1 hb with rfl | hb
      · exact Or.inl ⟨hds, hget⟩
      · rcases List.mem_cons.1 hb with rfl | hb
        · exact Or.inr ⟨hds, hget⟩
        · exact absurd hb (List.not_mem_nil b)
  · intro df hdf
    rcases hres : (vrunBuckets transport year geo apiKey
        [("acs/acs5/profile",
          codes.filter (fun c => dataset_for_multi c == "acs/acs5/profile")),
         ("acs/acs5",
          codes.filter (fun c => dataset_for_multi c == "acs/acs5"))]
        0 [] []).1 with e | frames
    · rw [show (call_api_vars transport year codes geo apiKey).1 =
          ((vrunBuckets transport year geo apiKey
            [("acs/acs5/profile",
              codes.filter (fun c => dataset_for_multi c
                == "acs/acs5/profile")),
             ("acs/acs5",
              codes.filter (fun c => dataset_for_multi c == "acs/acs5"))]
            0 [] []).1.map pdConcat) from rfl, hres] at hdf
      exact absurd hdf (by simp [Except.map])
    · rw [show (call_api_vars transport year codes geo apiKey).1 =
          ((vrunBuckets transport year geo apiKey
            [("acs/acs5/profile",
              codes.filter (fun c => dataset_for_multi c
                == "acs/acs5/profile")),
             ("acs/acs5",
              codes.filter (fun c => dataset_for_multi c == "acs/acs5"))]
            0 [] []).1.map pdConcat) from rfl, hres] at hdf
      simp only [Except.map] at hdf
      injection hdf with hdf
      refine ⟨frames, hdf.symm, ?_, ?_⟩
      · have := s4 frames hres
        rw [hcnt] at this
        simpa using this
      · rw [← hdf]
        exact pdConcat_rows_length frames

/-- C8 amended witness: the city-geography batch over one profile and one
detailed code. -/
theorem vars_batching_amended_witness :
    (call_api_vars varsOkTransport 2023 ["DP05_0001E", "B01001_001E"]
        CITY_GEO "K").2.length ≤ 4 ∧
    (¬ strContains (CITY_GEO.forVal.getD "") "zip code tabulation area"
        = true →
      (call_api_vars varsOkTransport 2023 ["DP05_0001E", "B01001_001E"]
          CITY_GEO "K").2.length ≤ 2) ∧
    (∀ q ∈ (call_api_vars varsOkTransport 2023 ["DP05_0001E", "B01001_001E"]
        CITY_GEO "K").2,
      (q.dataset = "acs/acs5/profile" ∧ q.get = "NAME," ++ joinComma
        ((["DP05_0001E", "B01001_001E"] : List String).filter
          (fun c => dataset_for_multi c == "acs/acs5/profile"))) ∨
      (q.dataset = "acs/acs5" ∧ q.get = "NAME," ++ joinComma
        ((["DP05_0001E", "B01001_001E"] : List String).filter
          (fun c => dataset_for_multi c == "acs/acs5")))) ∧
    (∀ df, (call_api_vars varsOkTransport 2023 ["DP05_0001E", "B01001_001E"]
        CITY_GEO "K").1 = Except.ok df →
      ∃ fs : List DF, df = pdConcat fs ∧
        fs.length =
          ((if ((["DP05_0001E", "B01001_001E"] : List String).filter
              (fun c => dataset_for_multi c
                == "acs/acs5/profile")).isEmpty then 0 else 1) +
           (if ((["DP05_0001E", "B01001_001E"] : List String).filter
              (fun c => dataset_for_multi c
                == "acs/acs5")).isEmpty then 0 else 1)) ∧
        df.rows.length = (fs.map (fun f => f.rows.length)).sum) :=
  vars_batching_amended varsOkTransport 2023 ["DP05_0001E", "B01001_001E"]
    CITY_GEO "K"

/-- C2 counterexample: for a ZCTA batch of `["DP05_0001E"]`, the single-call
path resolves to code `B01003_001E` on the detailed dataset, but
`call_api_vars` issues its one request with the UNSUBSTITUTED profile code
`DP05_0001E` on the profile dataset — the batch path does not delegate
through the Resolver. -/
theorem vars_bypass_resolver_counterexample :
    (call_api_vars varsOkTransport 2023 ["DP05_0001E"]
        (zcta_geo "90802") "K").2
      = [{ year := 2023, dataset := "acs/acs5/profile",
           get := "NAME,DP05_0001E", key := "K",
           forVal := some "zip code tabulation area:90802",
           inVal := none }] ∧
    resolvePair "DP05_0001E" (zcta_geo "90802")
      = ("B01003_001E", "acs/acs5") ∧
    ("acs/acs5/profile" : String) ≠ "acs/acs5" ∧
    ("NAME,DP05_0001E" : String) ≠ "NAME,B01003_001E" := by decide

/-- C2 (amended): the batch path is its own pipeline, not the single-call
Resolver → TTL cache → Executor path: every request of `call_api_vars`
carries one family's RAW (unsubstituted) code list, and `call_api_vars_ttl`
caches whole batches in the separate `_multi_cache` keyed by
`(year, sorted codes, for, in)` — a repeat of the same batch within the TTL
is served from that cache with no further request, while entries of the
single-call caches are never consulted. -/
theorem vars_ttl_separate_cache_amended (transport : Nat → VReq → VResp)
    (now : Nat) (year : Int) (codes : List String) (geo : Geo)
    (apiKey : String) (ttl : Nat) (st : VTtlState) (df : DF) (ts : Nat)
    (hlk : st.multi.lookup (multiKey year codes geo) = some (df, ts))
    (hts : now - ts < ttl) :
    call_api_vars_ttl transport now year codes geo apiKey ttl st
      = (Except.ok df, st) ∧
    (∀ q ∈ (call_api_vars transport year codes geo apiKey).2,
      (q.dataset = "acs/acs5/profile" ∧ q.get = "NAME," ++ joinComma
        (codes.filter (fun c => dataset_for_multi c == "acs/acs5/profile"))) ∨
      (q.dataset = "acs/acs5" ∧ q.get = "NAME," ++ joinComma
        (codes.filter (fun c => dataset_for_multi c == "acs/acs5")))) := by
  constructor
  · unfold call_api_vars_ttl
    rw [hlk]
    dsimp only
    rw [if_pos hts]
  · obtain ⟨-, -, s3, -⟩ := vrunBuckets_spec transport year geo apiKey
      [("acs/acs5/profile",
        codes.filter (fun c => dataset_for_multi c == "acs/acs5/profile")),
       ("acs/acs5",
        codes.filter (fun c => dataset_for_multi c == "acs/acs5"))] 0 [] []
    intro q hq
    rcases s3 q hq with hq0 | ⟨b, hb, -, hds, hget, -, -⟩
    · exact absurd hq0 (List.not_mem_nil q)
    · rcases List.mem_cons.1 hb with rfl | hb
      · exact Or.inl ⟨hds, hget⟩
      · rcases List.mem_cons.1 hb with rfl | hb
        · exact Or.inr ⟨hds, hget⟩
        · exact absurd hb (List.not_mem_nil b)

/-- A demo `_multi_cache` state holding a fresh batch entry. -/
def vDemoState : VTtlState :=
  { multi := [(multiKey 2023 ["DP05_0001E"] CITY_GEO, vDemoTable, 0)],
    requestCount := 2 }

/-- C2 amended witness: the batch TTL hit at minute 30 and the raw-code
request shape, at concrete inputs. -/
theorem vars_ttl_separate_cache_amended_witness :
    call_api_vars_ttl varsOkTransport 30 2023 ["DP05_0001E"] CITY_GEO "K" 60
        vDemoState = (Except.ok vDemoTable, vDemoState) ∧
    (∀ q ∈ (call_api_vars varsOkTransport 2023 ["DP05_0001E"]
        CITY_GEO "K").2,
      (q.dataset = "acs/acs5/profile" ∧ q.get = "NAME," ++ joinComma
        ((["DP05_0001E"] : List String).filter
          (fun c => dataset_for_multi c == "acs/acs5/profile"))) ∨
      (q.dataset = "acs/acs5" ∧ q.get = "NAME," ++ joinComma
        ((["DP05_0001E"] : List String).filter
          (fun c => dataset_for_multi c == "acs/acs5")))) :=
  vars_ttl_separate_cache_amended varsOkTransport 30 2023 ["DP05_0001E"]
    CITY_GEO "K" 60 vDemoState vDemoTable 0 (by decide) (by decide)
